import Mathlib

/-!
Verification development for the Streamer-Sales digital-human rendering core
(`utils/digital_human/realtime_inference.py`) and the login endpoint
(`server/base/routers/users.py`).

The Python source is shallowly embedded: pure computations become Lean
functions, the two-thread render pipeline becomes a step relation on an
explicit state, file-system effects become event traces, and the external
collaborators (pose model, VAE, face parser, bcrypt, ffmpeg) become opaque
function parameters.
-/

namespace StreamerSales

/-! ## Preparation pipeline (`Avatar.prepare_material`)

`get_landmark_and_bbox` returns one bounding box per source frame; a frame
where no face is found gets the sentinel box `(0,0,0,0)`
(`coord_placeholder` in the source).  Frames and latents are abstracted by
type parameters; the VAE encode step is an opaque function of the frame and
its box. -/

/-- A face bounding box `(x1, y1, x2, y2)` as produced by the landmark model. -/
abbrev Box := Int × Int × Int × Int

/-- The sentinel box used by `prepare_material` for frames with no detected
face (`coord_placeholder = (0.0, 0.0, 0.0, 0.0)` in the source). -/
def coord_placeholder : Box := (0, 0, 0, 0)

/-- Embeds the loop of `prepare_material` lines 167-179: walk
`zip(coord_list, frame_list)`, skip sentinel boxes, and collect one latent
per remaining frame (crop + resize + `get_latents_for_unet`, abstracted by
`encode`). -/
def input_latent_list {F L : Type} (coords : List Box) (frames : List F)
    (encode : F → Box → L) : List L :=
  ((coords.zip frames).filter (fun p => p.1 ≠ coord_placeholder)).map
    (fun p => encode p.2 p.1)

/-- Embeds the ping-pong construction `l + l[::-1]` used for
`frame_list_cycle`, `coord_list_cycle` and `input_latent_list_cycle`
(lines 181-183). -/
def mkCycle {α : Type} (l : List α) : List α := l ++ l.reverse

/-- `frame_list_cycle = frame_list + frame_list[::-1]` (line 181): built from
the full frame list, sentinel-box frames included. -/
def frame_list_cycle {F : Type} (frames : List F) : List F := mkCycle frames

/-- `coord_list_cycle = coord_list + coord_list[::-1]` (line 182): built from
the full coordinate list, sentinel boxes included. -/
def coord_list_cycle (coords : List Box) : List Box := mkCycle coords

/-- `input_latent_list_cycle = input_latent_list + input_latent_list[::-1]`
(line 183): built from the sentinel-filtered latent list. -/
def input_latent_list_cycle {F L : Type} (coords : List Box) (frames : List F)
    (encode : F → Box → L) : List L :=
  mkCycle (input_latent_list coords frames encode)

/-- Embeds the mask loop of `prepare_material` lines 187-194: for every `i`,
`get_image_prepare_material(frame_list_cycle[i], coord_list_cycle[i])`
yields `(mask, crop_box)`; the masks are collected into `mask_list_cycle`.
The face-parsing collaborator is the opaque `mkMask`. -/
def mask_list_cycle {F M : Type} (frames : List F) (coords : List Box)
    (mkMask : F → Box → M × Box) : List M :=
  ((frame_list_cycle frames).zip (coord_list_cycle coords)).map
    (fun p => (mkMask p.1 p.2).1)

/-- The crop boxes collected into `mask_coords_list_cycle` by the same loop
(line 193). -/
def mask_coords_list_cycle {F M : Type} (frames : List F) (coords : List Box)
    (mkMask : F → Box → M × Box) : List Box :=
  ((frame_list_cycle frames).zip (coord_list_cycle coords)).map
    (fun p => (mkMask p.1 p.2).2)

/-- The number of source frames whose bounding box is not the sentinel:
the `N` of the spec's cycle-length invariant. -/
def validBoxCount (coords : List Box) : Nat :=
  coords.countP (fun b => b ≠ coord_placeholder)

/-! ## Render pipeline consumer (`Avatar.process_frames`)

`inference` (lines 240-266) computes `video_num = len(whisper_chunks)`,
creates `res_frame_queue = queue.Queue()`, resets `self.idx = 0`, starts the
consumer thread, and pushes exactly one reconstructed frame per whisper
chunk in order; the queue is FIFO, so the consumer pops frames in production
order.  We represent the stream of produced frames by a `List Bool`: the
`k`-th entry is `true` when the `cv2.resize` of the `k`-th popped frame
raises (the bare `except: continue` at lines 218-221), `false` when it
succeeds.

`process_frames` (lines 204-229) loops: it breaks when
`self.idx >= video_len - 1`; otherwise it pops the next frame (retrying
forever on an empty-queue timeout), and on a resize failure `continue`s
without touching `idx`, while on success it composites, writes file
`idx` (zero-padded) and increments `idx`.  `consumerRun` returns
`some written` (the ordered list of written frame numbers) when the loop
breaks, and `none` when the producer's stream is exhausted while the loop
condition still holds — the Python thread then spins on the 1-second
timeout forever. -/

/-- One run of the `process_frames` loop from state `(idx, written)`, with
`items` the frames still to be popped (FIFO order; `true` = resize fails).
`videoLen` is the `video_len` argument, i.e. the number of audio chunks. -/
def consumerRun (videoLen : Nat) : List Bool → Nat → List Nat → Option (List Nat)
  | items, idx, written =>
    if videoLen - 1 ≤ idx then some written
    else
      match items with
      | [] => none
      | b :: rest =>
        if b then consumerRun videoLen rest idx written
        else consumerRun videoLen rest (idx + 1) (written ++ [idx])

/-- A whole render seen from the consumer: `inference` resets `self.idx = 0`
and passes `video_len := items.length` (one queue item is produced per audio
chunk).  Returns the written frame numbers, or `none` when `process_frames`
never reaches its break condition (the join at line 266 then never
returns). -/
def renderWritten (items : List Bool) : Option (List Nat) :=
  consumerRun items.length items 0 []

/-! ## Render pipeline interleavings (`Avatar.inference` + `process_frames`)

For the queue-boundedness claim we model the two threads as a step relation.
`pushed` counts `res_frame_queue.put` calls by the producer loop (lines
263-264), `popped` counts successful `res_frame_queue.get` calls by the
consumer, and `idx` is the shared counter `self.idx`.  The queue is created
as `queue.Queue()` with no `maxsize` argument (line 241), so a `put` is
enabled whenever the producer still has frames, regardless of how many
items are already queued. -/

/-- Shared state of one in-flight render. -/
structure RenderSt where
  pushed : Nat
  popped : Nat
  idx : Nat
  deriving DecidableEq, Repr

/-- One interleaved step of the render: a producer `put` (never gated on
queue occupancy, since the queue is unbounded), or a consumer pop that
either skips (resize failure) or composites-and-writes.  `fails k` tells
whether the `k`-th produced frame fails to resize. -/
inductive RenderStep (videoLen : Nat) (fails : Nat → Bool) :
    RenderSt → RenderSt → Prop
  | push (s : RenderSt) : s.pushed < videoLen →
      RenderStep videoLen fails s { s with pushed := s.pushed + 1 }
  | popSkip (s : RenderSt) : s.idx < videoLen - 1 → s.popped < s.pushed →
      fails s.popped = true →
      RenderStep videoLen fails s { s with popped := s.popped + 1 }
  | popWrite (s : RenderSt) : s.idx < videoLen - 1 → s.popped < s.pushed →
      fails s.popped = false →
      RenderStep videoLen fails s
        { s with popped := s.popped + 1, idx := s.idx + 1 }

/-- States reachable from the start of a render (`self.idx = 0`, empty
queue, nothing produced). -/
def RenderReachable (videoLen : Nat) (fails : Nat → Bool) : RenderSt → Prop :=
  Relation.ReflTransGen (RenderStep videoLen fails) ⟨0, 0, 0⟩

/-- Number of reconstructed-but-uncomposited frames sitting in
`res_frame_queue` in state `s`. -/
def queueLen (s : RenderSt) : Nat := s.pushed - s.popped

/-- The property claimed by the spec: some fixed capacity bounds the queue
in every reachable state of every render, with puts blocking at the bound. -/
def QueueBounded : Prop :=
  ∃ cap : Nat, ∀ (videoLen : Nat) (fails : Nat → Bool) (s : RenderSt),
    RenderReachable videoLen fails s → queueLen s ≤ cap

/-! ## Video assembler (`Avatar.inference` lines 270-281)

After the join, `inference` runs two `os.system` ffmpeg commands and then
`os.remove(temp.mp4)` and `shutil.rmtree(tmp)`.  The return values of both
`os.system` calls are discarded, so the encoder exit statuses are inputs
that the control flow never inspects.  Whether the failing first command
still created `temp.mp4` is up to ffmpeg, so the file's existence is a
separate input; `os.remove`/`shutil.rmtree` raise when their target is
missing (there is no surrounding `try`), which we model with `Except`. -/

/-- Observable file-system events of the assembly epilogue. -/
inductive VAEvent
  | runImg2Video
  | runCombineAudio
  | removeTempVid
  | removeTmpDir
  deriving DecidableEq, Repr

/-- Embeds `inference` lines 270-281: run the two encoder commands (exit
codes `enc1Exit`, `enc2Exit` are returned by `os.system` and ignored), then
always attempt `os.remove` of the intermediate video and `shutil.rmtree` of
the frame directory.  `tempVidExists` / `tmpDirExists` say whether those
targets exist when the removals run; a missing target raises (OSError),
aborting the remaining statements. -/
def inferenceEpilogue (enc1Exit enc2Exit : Nat)
    (tempVidExists tmpDirExists : Bool) : Except String (List VAEvent) :=
  let runs := [VAEvent.runImg2Video, VAEvent.runCombineAudio]
  if tempVidExists then
    if tmpDirExists then
      Except.ok (runs ++ [VAEvent.removeTempVid, VAEvent.removeTmpDir])
    else Except.error "FileNotFoundError: tmp dir"
  else Except.error "FileNotFoundError: temp.mp4"

/-! ## Cache-invalidation decision (`Avatar.init` lines 110-132)

`init` decides `need_to_prepare` from `preparation_force`, the existence of
the working directory, and — when the directory exists and no force is
requested — the `bbox_shift` recorded in `avator_info.json` versus the
requested one.  On a rebuild, `prepare_material` first rewrites the manifest
from `self.avatar_info`, which holds the requested `bbox_shift`. -/

/-- Outcome of `Avatar.init`'s rebuild decision. -/
structure InitOutcome where
  deletedTree : Bool
  rebuilt : Bool
  manifestBboxShift : Int
  deriving DecidableEq, Repr

/-- Embeds `Avatar.init` lines 110-132 followed by the manifest write of
`prepare_material` line 148-149: `stored` is the `bbox_shift` in the
existing manifest (meaningful only when `dirExists`), `requested` is
`self.avatar_info["bbox_shift"]`. -/
def avatarInit (force dirExists : Bool) (stored requested : Int) :
    InitOutcome :=
  if force && dirExists then
    { deletedTree := true, rebuilt := true, manifestBboxShift := requested }
  else if !dirExists then
    { deletedTree := false, rebuilt := true, manifestBboxShift := requested }
  else if stored ≠ requested then
    { deletedTree := true, rebuilt := true, manifestBboxShift := requested }
  else
    { deletedTree := false, rebuilt := false, manifestBboxShift := stored }

/-! ## Artifact loading (`Avatar.init` lines 134-144)

When (and after any) rebuild, `init` loads the five persisted artifacts in
source order: `torch.load(latents)`, `pickle.load(coords)`, the full-frame
images, `pickle.load(mask_coords)`, the mask images.  Both image lists are
sorted with `key=lambda x: int(os.path.splitext(os.path.basename(x))[0])`,
Python's stable ascending sort on the integer value of the filename stem. -/

/-- The five load events of `Avatar.init`. -/
inductive LoadEvent
  | loadLatents
  | loadCoords
  | loadFullFrames
  | loadMaskCoords
  | loadMaskFrames
  deriving DecidableEq, Repr

/-- The order in which `Avatar.init` lines 134-144 read the five artifacts
from disk. -/
def initLoadOrder : List LoadEvent :=
  [LoadEvent.loadLatents, LoadEvent.loadCoords, LoadEvent.loadFullFrames,
   LoadEvent.loadMaskCoords, LoadEvent.loadMaskFrames]

/-- Split a character list at every occurrence of `sep`, like Python's
`str.split(sep)`: `splitOnSep sep "a.b".data = ["a".data, "b".data]`. -/
def splitOnSep (sep : Char) : List Char → List (List Char)
  | [] => [[]]
  | c :: rest =>
      let groups := splitOnSep sep rest
      if c = sep then [] :: groups
      else
        match groups with
        | [] => [[c]]
        | g :: gs => (c :: g) :: gs

/-- Rejoin groups with a dot, the inverse step `"." .join(...)` needs for
`splitext` stems that themselves contain dots. -/
def joinWithDot : List (List Char) → List Char
  | [] => []
  | [g] => g
  | g :: gs => g ++ Char.ofNat 46 :: joinWithDot gs

/-- `os.path.basename`: the part of the path after the last slash. -/
def pathBasename (p : String) : List Char :=
  (splitOnSep (Char.ofNat 47) p.data).getLastD []

/-- The stem produced by `os.path.splitext(basename)[0]`: the basename
with everything from the last dot on removed (when it has a dot). -/
def filenameStem (p : String) : List Char :=
  match splitOnSep (Char.ofNat 46) (pathBasename p) with
  | [] => []
  | [s] => s
  | parts => joinWithDot parts.dropLast

/-- The value of a decimal digit character, `none` on a non-digit. -/
def digitVal (c : Char) : Option Nat :=
  if 48 ≤ c.toNat ∧ c.toNat ≤ 57 then some (c.toNat - 48) else none

/-- Python's `int` on a digit string (leading zeros allowed): `none` when
empty or holding a non-digit. -/
def parseNatAux : List Char → Nat → Option Nat
  | [], acc => some acc
  | c :: rest, acc =>
      match digitVal c with
      | none => none
      | some d => parseNatAux rest (acc * 10 + d)

/-- `int(stem)`: the numeric sort key `lambda x:
int(os.path.splitext(os.path.basename(x))[0])`.  The cache's own
filenames are all digit strings; a non-numeric stem defaults to 0 (Python
would raise there instead, a case `init` never meets). -/
def numericStemKey (p : String) : Nat :=
  match filenameStem p with
  | [] => 0
  | cs => (parseNatAux cs 0).getD 0

/-- Embeds `sorted(files, key=lambda x: int(...))`: Python's sort is a
stable ascending sort by the key, which insertion sort realizes. -/
def sortByNumericStem (files : List String) : List String :=
  files.insertionSort (fun a b => numericStemKey a ≤ numericStemKey b)

/-- Code-point lexicographic order on character lists, Python's plain
string comparison. -/
def lexLeChars : List Char → List Char → Bool
  | [], _ => true
  | _ :: _, [] => false
  | a :: as, b :: bs =>
      if a = b then lexLeChars as bs else decide (a.toNat ≤ b.toNat)

/-- Plain lexicographic filename sort, for contrast with the numeric rule. -/
def sortLex (files : List String) : List String :=
  files.insertionSort (fun a b => lexLeChars a.data b.data = true)

/-! ## Preparation side effects (`Avatar.prepare_material` + `video2imgs`)

`prepare_material` (lines 146-202) opens with the manifest dump (lines
148-149) before materializing frames, loading the pose model, or calling
any collaborator.  `video2imgs` (lines 30-41) decodes the source video
frame by frame: starting from `count = 0` it first breaks when
`count > cut_frame`, otherwise reads one frame; a successful read is
written to `{count:08d}.png` and increments `count`; a failed read ends the
loop. -/

/-- Externally visible actions of `prepare_material`, in program order. -/
inductive PrepEvent
  | writeManifest
  | materializeFrames
  | loadPoseModel
  | extractLandmarks
  | encodeLatents
  | writeCycleImages
  | persistMaskCoords
  | persistCoords
  | persistLatents
  deriving DecidableEq, Repr

/-- The action trace of `prepare_material` lines 146-202.  The heavy steps
are opaque collaborator calls; only their order matters here, and it does
not depend on the inputs. -/
def prepareTrace : List PrepEvent :=
  [PrepEvent.writeManifest, PrepEvent.materializeFrames,
   PrepEvent.loadPoseModel, PrepEvent.extractLandmarks,
   PrepEvent.encodeLatents, PrepEvent.writeCycleImages,
   PrepEvent.persistMaskCoords, PrepEvent.persistCoords,
   PrepEvent.persistLatents]

/-- Left-pad a decimal numeral with zeros to width 8, as the format
`{count:08d}` does for the values in range. -/
def zfill8 (n : Nat) : String :=
  let s := toString n
  String.mk (List.replicate (8 - s.length) ('0')) ++ s

/-- Helper for `video2imgs`: `decoded` is the remaining stream of frames
`cap.read()` will yield (the decoder is external; a `ret = False` end of
stream is the end of the list), `count` the current counter.  Returns the
`(count, filename)` pairs written. -/
def video2imgsAux {F : Type} (cutFrame : Nat) :
    List F → Nat → List (Nat × String)
  | decoded, count =>
    if cutFrame < count then []
    else
      match decoded with
      | [] => []
      | _ :: rest =>
        (count, zfill8 count ++ ".png") :: video2imgsAux cutFrame rest (count + 1)

/-- Embeds `video2imgs(vid_path, save_path, ext, cut_frame)` (lines 30-41):
the files written for a video whose decoder yields `decoded`. -/
def video2imgs {F : Type} (decoded : List F) (cutFrame : Nat) :
    List (Nat × String) :=
  video2imgsAux cutFrame decoded 0

/-! ## Login endpoint (`server/base/routers/users.py`)

`fake_users_db` holds a single user.  `authenticate_user` returns `False`
when the username is missing or `verify_password` (bcrypt, opaque) fails,
and the user record otherwise; `login` answers 401 in the `False` case and
otherwise issues a token whose payload is built from the record and
`datetime.now(timezone.utc)`.  We model wall-clock time as whole seconds
(`now : Int`, the Unix timestamp at issuance); `timedelta(days=7)` is
604800 seconds; pydantic's `UserInfo` coerces the stored `user_id` string
to the integer it spells. -/

/-- A record of `fake_users_db` after pydantic validation into `UserInfo`. -/
structure UserInfo where
  username : String
  user_id : Int
  ip_adress : Option String
  disabled : Option Bool
  hashed_password : Option String
  deriving DecidableEq, Repr

/-- The hard-coded user database (lines 21-30). -/
def fake_users_db : List (String × UserInfo) :=
  [("hingwen.wong",
    { username := "hingwen.wong", user_id := 1,
      ip_adress := some "127.0.0.1", disabled := some false,
      hashed_password :=
        some "$2b$12$zXXveodjipHZMoSxJz5ODul7Z9YeRJd0GeSBjpwHdqEtBbAFvEdre" })]

/-- `get_user` (lines 65-69): look the username up in the db. -/
def get_user (db : List (String × UserInfo)) (username : String) :
    Option UserInfo :=
  (db.find? (fun p => p.1 == username)).map Prod.snd

/-- `authenticate_user` (lines 72-86): `none` plays Python's `False`.
`verify` is the opaque bcrypt check `verify_password(plain, hashed)`,
handed the stored hash (an absent hash is the empty string, as
`passlib.verify(None)` would reject anyway). -/
def authenticate_user (db : List (String × UserInfo))
    (username password : String) (verify : String → String → Bool) :
    Option UserInfo :=
  match get_user db username with
  | none => none
  | some u =>
      if verify password (u.hashed_password.getD "") then some u else none

/-- The JWT claims dict built at lines 120-126. -/
structure TokenPayload where
  user_id : Int
  username : String
  exp : Int
  ip : Option String
  login_time : Int
  deriving DecidableEq, Repr

/-- An HTTP error response raised via `HTTPException`. -/
structure HTTPError where
  status_code : Nat
  detail : String
  deriving DecidableEq, Repr

/-- `login` (lines 107-136): 401 when authentication fails, otherwise a
token whose payload carries the user's id and name, an expiry of
`now + timedelta(days=7)`, the stored IP, and the login time.  `now` is the
Unix time (whole seconds) at which the request is handled; `jwt.encode`
is injective on the payload, so the payload stands for the token. -/
def login (db : List (String × UserInfo)) (username password : String)
    (verify : String → String → Bool) (now : Int) :
    Except HTTPError TokenPayload :=
  match authenticate_user db username password verify with
  | none =>
      Except.error { status_code := 401, detail := "Incorrect username or password" }
  | some u =>
      Except.ok
        { user_id := u.user_id, username := u.username,
          exp := now + 7 * 24 * 60 * 60, ip := u.ip_adress, login_time := now }

/-! ## Consumer-loop lemmas -/

/-- On a list of booleans, the `true`s and `false`s account for every
element. -/
theorem count_true_add_count_false (l : List Bool) :
    l.count true + l.count false = l.length := by
  induction l with
  | nil => rfl
  | cons b rest ih => cases b <;> simp [List.count_cons] <;> omega

/-- If the pending stream holds enough resize successes to drive `idx` up to
`videoLen - 1`, the `process_frames` loop breaks, and the number of frames
written on the way is exactly the distance the counter travelled. -/
theorem consumerRun_complete (videoLen : Nat) :
    ∀ (items : List Bool) (idx : Nat) (written : List Nat),
      videoLen - 1 ≤ idx + items.count false →
      ∃ w, consumerRun videoLen items idx written = some w ∧
        w.length = written.length + (videoLen - 1 - idx)
  | [], idx, written, h => by
      rw [consumerRun]
      simp only [List.count_nil, Nat.add_zero] at h
      rw [if_pos h]
      exact ⟨written, rfl, by omega⟩
  | b :: rest, idx, written, h => by
      rw [consumerRun]
      by_cases hidx : videoLen - 1 ≤ idx
      · rw [if_pos hidx]
        exact ⟨written, rfl, by omega⟩
      · rw [if_neg hidx]
        cases b with
        | true =>
            rw [if_pos rfl]
            have hc : videoLen - 1 ≤ idx + rest.count false := by
              simp [List.count_cons] at h; omega
            exact consumerRun_complete videoLen rest idx written hc
        | false =>
            rw [if_neg (by simp)]
            have hc : videoLen - 1 ≤ (idx + 1) + rest.count false := by
              simp [List.count_cons] at h; omega
            obtain ⟨w, hw, hl⟩ :=
              consumerRun_complete videoLen rest (idx + 1) (written ++ [idx]) hc
            refine ⟨w, hw, ?_⟩
            simp only [List.length_append, List.length_cons, List.length_nil] at hl
            omega

/-- Whenever the `process_frames` loop breaks, the counter has landed
exactly on `videoLen - 1`, so the frames written from a state `(idx,
written)` number `videoLen - 1 - idx`. -/
theorem consumerRun_some_length (videoLen : Nat) :
    ∀ (items : List Bool) (idx : Nat) (written : List Nat) (w : List Nat),
      idx ≤ videoLen - 1 →
      consumerRun videoLen items idx written = some w →
      w.length = written.length + (videoLen - 1 - idx)
  | [], idx, written, w, hle, h => by
      rw [consumerRun] at h
      by_cases hidx : videoLen - 1 ≤ idx
      · rw [if_pos hidx] at h
        cases h
        omega
      · rw [if_neg hidx] at h
        exact absurd h (by simp)
  | b :: rest, idx, written, w, hle, h => by
      rw [consumerRun] at h
      by_cases hidx : videoLen - 1 ≤ idx
      · rw [if_pos hidx] at h
        cases h
        omega
      · rw [if_neg hidx] at h
        cases b with
        | true =>
            rw [if_pos rfl] at h
            exact consumerRun_some_length videoLen rest idx written w
              (by omega) h
        | false =>
            rw [if_neg (by simp)] at h
            have := consumerRun_some_length videoLen rest (idx + 1)
              (written ++ [idx]) w (by omega) h
            simp only [List.length_append, List.length_cons,
              List.length_nil] at this
            omega

/-- With no resize failures and enough pending frames, the loop runs the
counter from `idx` up to `videoLen - 1`, writing the consecutive frame
numbers on the way. -/
theorem consumerRun_all_ok (videoLen : Nat) :
    ∀ (items : List Bool) (idx : Nat) (written : List Nat),
      (∀ b ∈ items, b = false) →
      videoLen - 1 ≤ idx + items.length →
      consumerRun videoLen items idx written =
        some (written ++ List.range' idx (videoLen - 1 - idx))
  | [], idx, written, _, hlen => by
      rw [consumerRun, if_pos (by simpa using hlen)]
      have : videoLen - 1 - idx = 0 := by simp at hlen; omega
      simp [this]
  | b :: rest, idx, written, hall, hlen => by
      by_cases hidx : videoLen - 1 ≤ idx
      · rw [consumerRun, if_pos hidx]
        have : videoLen - 1 - idx = 0 := by omega
        simp [this]
      · rw [consumerRun, if_neg hidx]
        have hb : b = false := hall b (by simp)
        subst hb
        rw [if_neg (by simp)]
        rw [consumerRun_all_ok videoLen rest (idx + 1) (written ++ [idx])
          (fun x hx => hall x (by simp [hx])) (by simp at hlen ⊢; omega)]
        have h1 : videoLen - 1 - idx = (videoLen - 1 - (idx + 1)) + 1 := by
          omega
        rw [h1, List.range'_succ]
        simp

/-- C1 (amended): for every render, whenever the consumer thread terminates
it does so with the shared counter at target length minus one, hence the
number of composited-and-written frames equals target length minus one
(regardless of the skipped-frame count); with zero skips, exactly
target-minus-one frames are written, numbered 0 through target-minus-two. -/
theorem process_frames_writes_target_sub_one :
    (∀ (items : List Bool) (w : List Nat),
        renderWritten items = some w → w.length = items.length - 1) ∧
    (∀ n : Nat,
        renderWritten (List.replicate n false) =
          some (List.range (n - 1))) := by
  constructor
  · intro items w h
    have := consumerRun_some_length items.length items 0 [] w (by omega) h
    simpa using this
  · intro n
    have := consumerRun_all_ok n (List.replicate n false) 0 []
      (fun b hb => List.eq_of_mem_replicate hb) (by simp)
    rw [renderWritten, List.length_replicate, this]
    simp [List.range_eq_range']

/-- Witness for C1 (amended), at a two-chunk render with no skips. -/
theorem process_frames_writes_target_sub_one_witness :
    ([0] : List Nat).length = ([false, false] : List Bool).length - 1 :=
  process_frames_writes_target_sub_one.1 [false, false] [0] (by decide)

/-- Counterexample to C1 as stated: a two-chunk render with zero skips
writes a single frame numbered 0, not two frames numbered 0 and 1, and its
frame count is target minus one, not target. -/
theorem process_frames_off_by_one :
    renderWritten [false, false] = some [0] ∧
    some ([0] : List Nat) ≠ some [0, 1] ∧ ([0] : List Nat).length ≠ 2 := by
  refine ⟨by decide, by decide, by decide⟩

/-- C2: whenever exactly one frame in the produced stream fails to resize,
the consumer thread still terminates (so the driving thread's join
returns, and the bare `except` swallowed the failure), having written
exactly one frame fewer than the target length. -/
theorem one_resize_failure_completes (items : List Bool)
    (h : items.count true = 1) :
    ∃ w, renderWritten items = some w ∧ w.length = items.length - 1 := by
  have hcf : items.length - 1 ≤ 0 + items.count false := by
    have := count_true_add_count_false items
    omega
  obtain ⟨w, hw, hl⟩ :=
    consumerRun_complete items.length items 0 [] hcf
  exact ⟨w, hw, by simpa using hl⟩

/-- Witness for C2: a three-chunk render whose second frame fails to
resize completes with two written frames. -/
theorem one_resize_failure_completes_witness :
    ∃ w, renderWritten [false, true, false] = some w ∧
      w.length = ([false, true, false] : List Bool).length - 1 :=
  one_resize_failure_completes [false, true, false] (by decide)

/-! ## Cycle-length lemmas (`prepare_material`) -/

/-- The latent list holds one entry per valid-box frame: the sentinel
filter of lines 171-179 keeps exactly the `validBoxCount` positions. -/
theorem input_latent_list_length {F L : Type} (encode : F → Box → L) :
    ∀ (coords : List Box) (frames : List F),
      coords.length = frames.length →
      (input_latent_list coords frames encode).length = validBoxCount coords
  | [], frames, _ => by simp [input_latent_list, validBoxCount]
  | c :: cs, [], h => by simp at h
  | c :: cs, f :: fs, h => by
      have ih := input_latent_list_length encode cs fs (by simpa using h)
      simp only [input_latent_list, validBoxCount, List.zip_cons_cons,
        List.filter_cons, List.countP_cons] at ih ⊢
      by_cases hc : c = coord_placeholder
      · simp [hc, input_latent_list, validBoxCount] at ih ⊢
        omega
      · simp [hc, input_latent_list, validBoxCount] at ih ⊢
        omega

/-- Counterexample to C3 as stated: a two-frame source whose first frame
has the sentinel box has `N = 1` valid frame, yet the frame cycle has
length `4 ≠ 2 * N`, and the sentinel box itself occurs in the coordinate
cycle. -/
theorem cycle_lists_keep_sentinel_frames :
    (frame_list_cycle [(10 : Int), 20]).length ≠
      2 * validBoxCount [coord_placeholder, (1, 2, 3, 4)] ∧
    coord_placeholder ∈ coord_list_cycle [coord_placeholder, (1, 2, 3, 4)] := by
  constructor
  · decide
  · decide

/-- C3 (amended): after preparation, only the latent cycle has length
`2 * N` (`N` the valid-box frame count); the frame, coordinate, mask and
mask-coordinate cycles all have length `2 * T` where `T` is the total
source frame count, sentinel-box frames included.  The five lengths agree
exactly in the special case where every source frame's box is valid, since
then `N = T`. -/
theorem cycle_lists_lengths {F L M : Type} (coords : List Box)
    (frames : List F) (encode : F → Box → L) (mkMask : F → Box → M × Box)
    (hlen : coords.length = frames.length) :
    (input_latent_list_cycle coords frames encode).length =
      2 * validBoxCount coords ∧
    (frame_list_cycle frames).length = 2 * frames.length ∧
    (coord_list_cycle coords).length = 2 * frames.length ∧
    (mask_list_cycle frames coords mkMask).length = 2 * frames.length ∧
    (mask_coords_list_cycle frames coords mkMask).length =
      2 * frames.length ∧
    (coord_placeholder ∉ coords → validBoxCount coords = coords.length) := by
  refine ⟨?_, ?_, ?_, ?_, ?_, ?_⟩
  · simp [input_latent_list_cycle, mkCycle,
      input_latent_list_length encode coords frames hlen]
    omega
  · simp [frame_list_cycle, mkCycle]; omega
  · simp [coord_list_cycle, mkCycle, hlen]; omega
  · simp [mask_list_cycle, frame_list_cycle, coord_list_cycle, mkCycle, hlen]
    omega
  · simp [mask_coords_list_cycle, frame_list_cycle, coord_list_cycle,
      mkCycle, hlen]
    omega
  · intro hni
    rw [validBoxCount, List.countP_eq_length]
    intro b hb
    simp only [decide_eq_true_eq]
    exact fun hbe => hni (hbe ▸ hb)

/-- Witness for C3 (amended), on the two-frame source with one sentinel
box: the latent cycle has length 2 while all other cycles have length 4. -/
theorem cycle_lists_lengths_witness :
    (input_latent_list_cycle [coord_placeholder, (1, 2, 3, 4)]
        [(10 : Int), 20] (fun f _ => f)).length =
      2 * validBoxCount [coord_placeholder, (1, 2, 3, 4)] ∧
    (frame_list_cycle [(10 : Int), 20]).length = 2 * 2 ∧
    (coord_list_cycle [coord_placeholder, (1, 2, 3, 4)]).length = 2 * 2 ∧
    (mask_list_cycle [(10 : Int), 20] [coord_placeholder, (1, 2, 3, 4)]
        (fun f b => (f, b))).length = 2 * 2 ∧
    (mask_coords_list_cycle [(10 : Int), 20]
        [coord_placeholder, (1, 2, 3, 4)] (fun f b => (f, b))).length =
      2 * 2 ∧
    (coord_placeholder ∉ [coord_placeholder, (1, 2, 3, 4)] →
      validBoxCount [coord_placeholder, (1, 2, 3, 4)] = 2) :=
  cycle_lists_lengths [coord_placeholder, (1, 2, 3, 4)] [(10 : Int), 20]
    (fun f _ => f) (fun f b => (f, b)) (by decide)

/-! ## Video assembler claims -/

/-- Counterexample to C4 as stated: with a failing first encoder
invocation (exit status 1) and the intermediate artifacts present, the
epilogue still deletes both the intermediate video and the frame
directory, rather than leaving them in place. -/
theorem cleanup_runs_despite_encoder_failure :
    inferenceEpilogue 1 0 true true =
      Except.ok [VAEvent.runImg2Video, VAEvent.runCombineAudio,
        VAEvent.removeTempVid, VAEvent.removeTmpDir] ∧
    VAEvent.removeTempVid ∈ [VAEvent.runImg2Video, VAEvent.runCombineAudio,
        VAEvent.removeTempVid, VAEvent.removeTmpDir] := by
  exact ⟨rfl, by decide⟩

/-- C4 (amended): the render never inspects the encoder exit statuses; it
deletes the intermediate silent video and the temporary frame directory
whenever they exist, on encoder success and failure alike. -/
theorem cleanup_is_unconditional (enc1Exit enc2Exit : Nat) :
    inferenceEpilogue enc1Exit enc2Exit true true =
      Except.ok [VAEvent.runImg2Video, VAEvent.runCombineAudio,
        VAEvent.removeTempVid, VAEvent.removeTmpDir] := rfl

/-! ## Queue-boundedness claims -/

/-- The producer may run arbitrarily far ahead: `k` consecutive `put`
steps are enabled from the initial state, since the queue construction
passes no capacity. -/
theorem pushes_reachable (videoLen : Nat) (fails : Nat → Bool) :
    ∀ k : Nat, k ≤ videoLen →
      RenderReachable videoLen fails ⟨k, 0, 0⟩ := by
  intro k
  induction k with
  | zero => intro _; exact Relation.ReflTransGen.refl
  | succ k ih =>
      intro h
      exact Relation.ReflTransGen.tail (ih (by omega))
        (RenderStep.push ⟨k, 0, 0⟩ h)

/-- Counterexample to C5 as stated: no fixed capacity bounds the handoff
queue across renders — for any candidate capacity, a render with more
audio chunks reaches a state holding more queued frames. -/
theorem handoff_queue_not_bounded : ¬ QueueBounded := by
  rintro ⟨cap, h⟩
  have hr := pushes_reachable (cap + 1) (fun _ => false) (cap + 1) le_rfl
  have hle := h (cap + 1) (fun _ => false) ⟨cap + 1, 0, 0⟩ hr
  simp [queueLen] at hle

/-- C5 (amended): the handoff queue is unbounded — a producer `put` is
enabled in every state in which frames remain to be produced, regardless
of current queue occupancy (it never blocks), and in particular the state
in which all target-length frames sit in the queue at once is reachable. -/
theorem handoff_queue_unbounded (videoLen : Nat) (fails : Nat → Bool) :
    RenderReachable videoLen fails ⟨videoLen, 0, 0⟩ ∧
    ∀ s : RenderSt, s.pushed < videoLen →
      RenderStep videoLen fails s { s with pushed := s.pushed + 1 } :=
  ⟨pushes_reachable videoLen fails videoLen le_rfl,
   fun s hs => RenderStep.push s hs⟩

/-- Witness for C5 (amended), on a two-chunk render: both frames can be
queued before any pop, and the second put is enabled with one frame
already queued. -/
theorem handoff_queue_unbounded_witness :
    RenderReachable 2 (fun _ => false) ⟨2, 0, 0⟩ ∧
    RenderStep 2 (fun _ => false) ⟨1, 0, 0⟩ ⟨2, 0, 0⟩ :=
  ⟨(handoff_queue_unbounded 2 (fun _ => false)).1,
   (handoff_queue_unbounded 2 (fun _ => false)).2 ⟨1, 0, 0⟩ (by decide)⟩

/-! ## Cache-invalidation claims -/

/-- C6: a missing working directory, a forced rebuild, or a manifest
`bbox_shift` differing from the requested one each trigger a rebuild whose
manifest records the requested `bbox_shift`, deleting the existing tree
when there is one; when the directory exists, no force is requested, and
the stored `bbox_shift` matches, no rebuild happens. -/
theorem init_rebuild_decision (force dirExists : Bool)
    (stored requested : Int) :
    ((dirExists = false ∨ force = true ∨ stored ≠ requested) →
      (avatarInit force dirExists stored requested).rebuilt = true ∧
      (avatarInit force dirExists stored requested).manifestBboxShift =
        requested ∧
      (dirExists = true →
        (avatarInit force dirExists stored requested).deletedTree = true)) ∧
    ((dirExists = true ∧ force = false ∧ stored = requested) →
      (avatarInit force dirExists stored requested).rebuilt = false ∧
      (avatarInit force dirExists stored requested).deletedTree = false) := by
  cases force <;> cases dirExists <;>
    by_cases h : stored = requested <;>
      simp_all [avatarInit]

/-- Witness for C6: a stored shift of 3 against a requested shift of 5, on
an existing unforced cache, deletes the tree, rebuilds, and stores 5. -/
theorem init_rebuild_decision_witness :
    (avatarInit false true 3 5).rebuilt = true ∧
    (avatarInit false true 3 5).manifestBboxShift = 5 ∧
    (avatarInit false true 3 5).deletedTree = true := by
  obtain ⟨h1, h2, h3⟩ :=
    (init_rebuild_decision false true 3 5).1 (Or.inr (Or.inr (by decide)))
  exact ⟨h1, h2, h3 rfl⟩

/-! ## Ping-pong mirror claims -/

/-- A ping-pong list `l + l[::-1]` reads the same backwards. -/
theorem mkCycle_reverse {α : Type} (l : List α) :
    (mkCycle l).reverse = mkCycle l := by
  simp [mkCycle]

/-- C7: in every cyclic list built as forward-plus-reverse — as
`prepare_material` builds the frame, coordinate and latent cycles — the
element at position `i` equals the element at position `L - 1 - i`. -/
theorem mkCycle_mirror {α : Type} (l : List α) (i : Nat)
    (h : i < (mkCycle l).length) :
    (mkCycle l).get ⟨i, h⟩ =
      (mkCycle l).get ⟨(mkCycle l).length - 1 - i, by omega⟩ := by
  simp only [List.get_eq_getElem]
  have h1 : i < (mkCycle l).reverse.length := by
    simpa using h
  have h2 := List.getElem_reverse (l := mkCycle l) (i := i) h1
  rw [← h2]
  exact List.getElem_of_eq (mkCycle_reverse l).symm h

/-- Witness for C7: in the cycle over `[1, 2, 3]`, position 1 mirrors
position 4. -/
theorem mkCycle_mirror_witness :
    (mkCycle [(1 : Int), 2, 3]).get ⟨1, by decide⟩ =
      (mkCycle [(1 : Int), 2, 3]).get
        ⟨(mkCycle [(1 : Int), 2, 3]).length - 1 - 1, by decide⟩ :=
  mkCycle_mirror [(1 : Int), 2, 3] 1 (by decide)

/-! ## Artifact-loading claims -/

/-- C8: when `Avatar.init` loads from disk it reads latents, coords, full
frames, mask coords, mask frames in that fixed order; both image-list
sorts order by the numeric value of the filename stem, which differs from
lexicographic filename order — `["10.png", "9.png"]` sorts numerically to
`["9.png", "10.png"]` but lexicographically stays put. -/
theorem init_load_order_and_sort :
    initLoadOrder =
      [LoadEvent.loadLatents, LoadEvent.loadCoords, LoadEvent.loadFullFrames,
       LoadEvent.loadMaskCoords, LoadEvent.loadMaskFrames] ∧
    (∀ files : List String,
      (sortByNumericStem files).Sorted
        (fun a b => numericStemKey a ≤ numericStemKey b)) ∧
    sortByNumericStem ["10.png", "9.png"] = ["9.png", "10.png"] ∧
    sortLex ["10.png", "9.png"] = ["10.png", "9.png"] := by
  refine ⟨rfl, ?_, by decide, by decide⟩
  intro files
  haveI : IsTotal String (fun a b => numericStemKey a ≤ numericStemKey b) :=
    ⟨fun a b => Nat.le_total _ _⟩
  haveI : IsTrans String (fun a b => numericStemKey a ≤ numericStemKey b) :=
    ⟨fun _ _ _ => Nat.le_trans⟩
  exact List.sorted_insertionSort _ files

/-! ## Preparation side-effect claims -/

/-- The frame numbers `video2imgs` assigns, counting from `count`, are the
consecutive naturals, one per decoded frame up to the cutoff. -/
theorem video2imgsAux_numbers {F : Type} (cutFrame : Nat) :
    ∀ (decoded : List F) (count : Nat),
      (video2imgsAux cutFrame decoded count).map Prod.fst =
        List.range' count (min decoded.length (cutFrame + 1 - count))
  | [], count => by
      rw [video2imgsAux]
      by_cases h : cutFrame < count
      · rw [if_pos h]; simp
      · rw [if_neg h]; simp
  | f :: rest, count => by
      rw [video2imgsAux]
      by_cases h : cutFrame < count
      · rw [if_pos h]
        have : cutFrame + 1 - count = 0 := by omega
        simp [this]
      · rw [if_neg h]
        simp only [List.map_cons]
        rw [video2imgsAux_numbers cutFrame rest (count + 1)]
        have h1 : cutFrame + 1 - count = (cutFrame + 1 - (count + 1)) + 1 := by
          omega
        have h2 : min (rest.length + 1) ((cutFrame + 1 - (count + 1)) + 1) =
            min rest.length (cutFrame + 1 - (count + 1)) + 1 := by
          omega
        rw [List.length_cons, h1, h2, List.range'_succ]

/-- Each file `video2imgs` writes is named by the zero-padded decimal of
its frame number. -/
theorem video2imgsAux_names {F : Type} (cutFrame : Nat) :
    ∀ (decoded : List F) (count : Nat),
      (video2imgsAux cutFrame decoded count).map Prod.snd =
        ((video2imgsAux cutFrame decoded count).map Prod.fst).map
          (fun i => zfill8 i ++ ".png")
  | [], count => by
      rw [video2imgsAux]
      by_cases h : cutFrame < count
      · rw [if_pos h]; simp
      · rw [if_neg h]; simp
  | f :: rest, count => by
      rw [video2imgsAux]
      by_cases h : cutFrame < count
      · rw [if_pos h]; simp
      · rw [if_neg h]
        simp only [List.map_cons]
        rw [video2imgsAux_names cutFrame rest (count + 1)]

/-- C9: `prepare_material` persists the manifest as its very first action,
before materializing frames or touching any collaborator; and for a video
source, the extracted frame files carry the zero-padded numbers 0, 1, 2,
... in order — strictly increasing from 0, one file per decoded frame (up
to the decode cutoff). -/
theorem prepare_manifest_first_and_numbering :
    prepareTrace.head? = some PrepEvent.writeManifest ∧
    (∀ (F : Type) (decoded : List F) (cutFrame : Nat),
      (video2imgs decoded cutFrame).map Prod.fst =
        List.range (min decoded.length (cutFrame + 1)) ∧
      (video2imgs decoded cutFrame).map Prod.snd =
        (List.range (min decoded.length (cutFrame + 1))).map
          (fun i => zfill8 i ++ ".png")) := by
  refine ⟨rfl, fun F decoded cutFrame => ⟨?_, ?_⟩⟩
  · rw [video2imgs, video2imgsAux_numbers, List.range_eq_range']
    simp
  · rw [video2imgs, video2imgsAux_names, video2imgsAux_numbers,
      List.range_eq_range']
    simp

/-! ## Login-endpoint claims -/

/-- C10: a username absent from the database, or a password failing hash
verification, makes `login` raise HTTP 401 "Incorrect username or
password" and issue no token; a successful login issues a token whose
payload holds the user's id and username and an expiry exactly 7 days
(604800 seconds) after issuance. -/
theorem login_behaviour (username password : String)
    (verify : String → String → Bool) (now : Int) :
    (get_user fake_users_db username = none →
      login fake_users_db username password verify now =
        Except.error
          { status_code := 401, detail := "Incorrect username or password" }) ∧
    (∀ u, get_user fake_users_db username = some u →
      verify password (u.hashed_password.getD "") = false →
      login fake_users_db username password verify now =
        Except.error
          { status_code := 401, detail := "Incorrect username or password" }) ∧
    (∀ u, get_user fake_users_db username = some u →
      verify password (u.hashed_password.getD "") = true →
      login fake_users_db username password verify now =
        Except.ok
          { user_id := u.user_id, username := u.username,
            exp := now + 7 * 24 * 60 * 60, ip := u.ip_adress,
            login_time := now }) := by
  refine ⟨?_, ?_, ?_⟩
  · intro h
    simp [login, authenticate_user, h]
  · intro u hu hv
    simp [login, authenticate_user, hu, hv]
  · intro u hu hv
    simp [login, authenticate_user, hu, hv]

/-- Witness for C10: the unknown user `alice` is refused with 401, and the
sole database user logging in at Unix time 0 with a passing hash check
receives a payload expiring at 604800. -/
theorem login_behaviour_witness :
    login fake_users_db "alice" "pw" (fun _ _ => true) 0 =
      Except.error
        { status_code := 401, detail := "Incorrect username or password" } ∧
    login fake_users_db "hingwen.wong" "123456" (fun _ _ => true) 0 =
      Except.ok
        { user_id := 1, username := "hingwen.wong", exp := 0 + 7 * 24 * 60 * 60,
          ip := some "127.0.0.1", login_time := 0 } := by
  constructor
  · exact (login_behaviour "alice" "pw" (fun _ _ => true) 0).1 (by decide)
  · exact (login_behaviour "hingwen.wong" "123456" (fun _ _ => true) 0).2.2
      { username := "hingwen.wong", user_id := 1,
        ip_adress := some "127.0.0.1", disabled := some false,
        hashed_password :=
          some "$2b$12$zXXveodjipHZMoSxJz5ODul7Z9YeRJd0GeSBjpwHdqEtBbAFvEdre" }
      (by decide) rfl

end StreamerSales

